import Mathlib

/-!
Shallow embedding of the cart ledger and checkout wizard state logic of the
Shop-ApiTest frontend.

Cart ledger (the `Cart` component): a list of line items with an `id`,
`productId`, display attributes, a `price` (decimal, embedded as `Rat`),
a `quantity` (integer) and a `checked` selection flag.  The mutating
operations `handleQuantityChange`, `handleDelete`, `handleCheck` and
`handleCheckAll`, and the derived values `totalAmount` and `checkedCount`,
are transcribed below exactly as the source computes them (`map` with a
conditional record update, `filter`, `filter`+`reduce`, `filter`+`length`).

Checkout wizard (the `Checkout` component): a single integer step driven by
`handleNext` / `handlePrev`, guarded by `steps.length - 1` where `steps` is
the fixed 3-entry step list, plus the order total `finalAmount` computed
from a snapshot item list, a shipping fee and a discount (both fixed at 0
in the source).
-/

/-- A cart line item, as stored in the `cartItems` state of the Cart view. -/
structure CartItem where
  id : Int
  productId : Int
  title : String
  image : String
  price : Rat
  quantity : Int
  checked : Bool
deriving DecidableEq, Repr

/-- `handleQuantityChange(id, quantity)`: map over the items, replacing the
quantity of every item whose id matches; no clamping is performed. -/
def handleQuantityChange (id : Int) (quantity : Int) (items : List CartItem) :
    List CartItem :=
  items.map (fun item => if item.id == id then { item with quantity := quantity } else item)

/-- `handleDelete(id)`: keep exactly the items whose id differs. -/
def handleDelete (id : Int) (items : List CartItem) : List CartItem :=
  items.filter (fun item => item.id != id)

/-- `handleCheck(id, checked)`: set the selection flag of the matching item. -/
def handleCheck (id : Int) (checked : Bool) (items : List CartItem) :
    List CartItem :=
  items.map (fun item => if item.id == id then { item with checked := checked } else item)

/-- `handleCheckAll(checked)`: set the selection flag of every item. -/
def handleCheckAll (checked : Bool) (items : List CartItem) : List CartItem :=
  items.map (fun item => { item with checked := checked })

/-- `totalAmount`: filter the checked items, then reduce with
`(sum, item) => sum + item.price * item.quantity` starting from 0. -/
def totalAmount (items : List CartItem) : Rat :=
  (items.filter (fun item => item.checked)).foldl
    (fun sum item => sum + item.price * (item.quantity : Rat)) 0

/-- `checkedCount`: the number of items with `checked == true`. -/
def checkedCount (items : List CartItem) : Nat :=
  (items.filter (fun item => item.checked)).length

/-- The fixed step list of the checkout wizard (titles only; the icons are
presentation detail). -/
def steps : List String := ["确认订单", "选择支付", "完成支付"]

/-- `handleNext`: if `currentStep < steps.length - 1` increment the step,
otherwise leave it unchanged (the else branch only emits the terminal
"支付成功" notification). -/
def handleNext (currentStep : Int) : Int :=
  if currentStep < (steps.length : Int) - 1 then currentStep + 1 else currentStep

/-- Whether the call `handleNext` emits the terminal "payment completed"
notification: exactly when the guard `currentStep < steps.length - 1` fails. -/
def nextEmitsPayment (currentStep : Int) : Bool :=
  if currentStep < (steps.length : Int) - 1 then false else true

/-- `handlePrev`: if `currentStep > 0` decrement the step, otherwise leave it
unchanged. -/
def handlePrev (currentStep : Int) : Int :=
  if currentStep > 0 then currentStep - 1 else currentStep

/-- A user interaction with the wizard: pressing the next or the prev button. -/
inductive WizardOp where
  | next : WizardOp
  | prev : WizardOp
deriving DecidableEq, Repr

/-- One wizard transition. -/
def stepOp : WizardOp → Int → Int
  | WizardOp.next, s => handleNext s
  | WizardOp.prev, s => handlePrev s

/-- Run a finite sequence of wizard interactions from the initial state
`useState(0)`. -/
def runWizard (ops : List WizardOp) : Int :=
  ops.foldl (fun s op => stepOp op s) 0

/-- A snapshot item of the checkout view's `cartItems` list. -/
structure CheckoutItem where
  id : Int
  title : String
  price : Rat
  quantity : Int
deriving DecidableEq, Repr

/-- The checkout view's `totalAmount`: reduce over all snapshot items with
`(sum, item) => sum + item.price * item.quantity` starting from 0. -/
def checkoutTotalAmount (items : List CheckoutItem) : Rat :=
  items.foldl (fun sum item => sum + item.price * (item.quantity : Rat)) 0

/-- `shippingFee`, fixed at 0 in the source. -/
def shippingFee : Rat := 0

/-- `discount`, fixed at 0 in the source. -/
def discount : Rat := 0

/-- `finalAmount = totalAmount + shippingFee - discount`, with the fee and
discount kept as parameters (the source instantiates both with 0). -/
def finalAmount (items : List CheckoutItem) (fee disc : Rat) : Rat :=
  checkoutTotalAmount items + fee - disc

/-- The ledger of the worked example in the specification: item 1 selected,
item 2 not selected. -/
def exampleLedger : List CartItem :=
  [{ id := 1, productId := 1, title := "商品 1", image := "", price := 299.99,
     quantity := 2, checked := true },
   { id := 2, productId := 2, title := "商品 2", image := "", price := 199.99,
     quantity := 1, checked := false }]

/-- The checkout view's mock snapshot `cartItems`. -/
def checkoutSnapshot : List CheckoutItem :=
  [{ id := 1, title := "商品 1", price := 299.99, quantity := 2 },
   { id := 2, title := "商品 2", price := 199.99, quantity := 1 }]

lemma cart_foldl_sum (l : List CartItem) (a : Rat) :
    l.foldl (fun sum item => sum + item.price * (item.quantity : Rat)) a
      = a + (l.map (fun item => item.price * (item.quantity : Rat))).sum := by
  induction l generalizing a with
  | nil => simp
  | cons hd tl ih => simp [List.foldl_cons, ih, add_assoc]

lemma checkout_foldl_sum (l : List CheckoutItem) (a : Rat) :
    l.foldl (fun sum item => sum + item.price * (item.quantity : Rat)) a
      = a + (l.map (fun item => item.price * (item.quantity : Rat))).sum := by
  induction l generalizing a with
  | nil => simp
  | cons hd tl ih => simp [List.foldl_cons, ih, add_assoc]

lemma totalAmount_eq_sum (items : List CartItem) :
    totalAmount items
      = ((items.filter (fun it => it.checked)).map
          (fun it => it.price * (it.quantity : Rat))).sum := by
  simpa using cart_foldl_sum (items.filter (fun it => it.checked)) 0

lemma filter_checked_quantityChange (i q : Int) (items : List CartItem)
    (h : ∀ it ∈ items, it.id = i → it.checked = false) :
    (handleQuantityChange i q items).filter (fun it => it.checked)
      = items.filter (fun it => it.checked) := by
  induction items with
  | nil => rfl
  | cons hd tl ih =>
    have htl := ih (fun it hm hid => h it (List.mem_cons_of_mem _ hm) hid)
    by_cases hid : hd.id = i
    · have hc : hd.checked = false := h hd (List.mem_cons_self _ _) hid
      simp only [handleQuantityChange, List.map_cons, List.filter_cons,
        beq_iff_eq] at htl ⊢
      simp [hid, hc, htl]
    · simp only [handleQuantityChange, List.map_cons, List.filter_cons,
        beq_iff_eq] at htl ⊢
      simp [hid, htl]

/-- C1: `total()` is the sum of `price × quantity` over exactly the checked
items, and `handleQuantityChange` on an id whose items are all unchecked
leaves `total()` unchanged. -/
theorem C1_total_over_selected (items : List CartItem) (i q : Int) :
    totalAmount items
      = ((items.filter (fun it => it.checked)).map
          (fun it => it.price * (it.quantity : Rat))).sum
    ∧ ((∀ it ∈ items, it.id = i → it.checked = false) →
        totalAmount (handleQuantityChange i q items) = totalAmount items) := by
  refine ⟨totalAmount_eq_sum items, fun h => ?_⟩
  rw [totalAmount, totalAmount, filter_checked_quantityChange i q items h]

/-- C1 witness: the unselected item 2 of the example ledger can change
quantity without changing the total. -/
theorem C1_total_over_selected_witness :
    totalAmount exampleLedger
      = ((exampleLedger.filter (fun it => it.checked)).map
          (fun it => it.price * (it.quantity : Rat))).sum
    ∧ totalAmount (handleQuantityChange 2 50 exampleLedger)
        = totalAmount exampleLedger :=
  ⟨(C1_total_over_selected exampleLedger 2 50).1,
   (C1_total_over_selected exampleLedger 2 50).2 (by decide)⟩

/-- C2 counterexample: `handleQuantityChange` does not clamp — setting the
quantity of the present id 1 to 0 leaves an item with quantity 0 ∉ [1,100]. -/
theorem C2_no_clamping_counterexample :
    ¬ ∀ it ∈ handleQuantityChange 1 0 exampleLedger,
        1 ≤ it.quantity ∧ it.quantity ≤ 100 := by
  decide

/-- C2 amended: the quantity argument is stored verbatim on every matching
line (no clamping in the mutation), so the [1,100] invariant is preserved
exactly when the argument itself lies in [1,100]. -/
theorem C2_quantity_in_range_amended (items : List CartItem) (i q : Int) :
    (1 ≤ q → q ≤ 100 →
      (∀ it ∈ items, 1 ≤ it.quantity ∧ it.quantity ≤ 100) →
      ∀ it ∈ handleQuantityChange i q items, 1 ≤ it.quantity ∧ it.quantity ≤ 100)
    ∧ (∀ it ∈ handleQuantityChange i q items, it.id = i → it.quantity = q) := by
  constructor
  · intro hq1 hq2 hinv it hit
    simp only [handleQuantityChange, List.mem_map] at hit
    obtain ⟨src, hsrc, heq⟩ := hit
    by_cases hid : src.id = i
    · simp [hid] at heq
      rw [← heq]
      exact ⟨hq1, hq2⟩
    · simp [hid] at heq
      rw [← heq]
      exact hinv src hsrc
  · intro it hit hid
    simp only [handleQuantityChange, List.mem_map] at hit
    obtain ⟨src, hsrc, heq⟩ := hit
    by_cases hsid : src.id = i
    · simp [hsid] at heq
      rw [← heq]
    · simp [hsid] at heq
      rw [← heq] at hid
      exact absurd hid hsid

/-- C2 amended witness: setting quantity 5 on the example ledger keeps the
invariant and stores 5 on the targeted line. -/
theorem C2_quantity_in_range_amended_witness :
    (∀ it ∈ handleQuantityChange 1 5 exampleLedger,
        1 ≤ it.quantity ∧ it.quantity ≤ 100)
    ∧ (∀ it ∈ handleQuantityChange 1 5 exampleLedger,
        it.id = 1 → it.quantity = 5) :=
  ⟨(C2_quantity_in_range_amended exampleLedger 1 5).1 (by decide) (by decide)
      (by decide),
   (C2_quantity_in_range_amended exampleLedger 1 5).2⟩

/-- C3: from step 0, two `next()` calls reach step 2, a third leaves the step
at 2, and only that third call emits the terminal payment notification. -/
theorem C3_wizard_next_twice :
    handleNext (handleNext 0) = 2
    ∧ handleNext (handleNext (handleNext 0)) = handleNext (handleNext 0)
    ∧ nextEmitsPayment (handleNext (handleNext 0)) = true
    ∧ nextEmitsPayment 0 = false
    ∧ nextEmitsPayment (handleNext 0) = false := by
  decide

/-- C4: `remove(id)` is idempotent, and removing an absent id is a no-op. -/
theorem C4_remove_idempotent (items : List CartItem) (i : Int) :
    handleDelete i (handleDelete i items) = handleDelete i items
    ∧ ((∀ it ∈ items, it.id ≠ i) → handleDelete i items = items) := by
  constructor
  · simp only [handleDelete, List.filter_filter, Bool.and_self]
  · intro h
    simp only [handleDelete]
    apply List.filter_eq_self.mpr
    intro it hit
    simpa using h it hit

/-- C4 witness: removing the absent id 3 from the example ledger twice equals
removing it once, and equals the ledger itself. -/
theorem C4_remove_idempotent_witness :
    handleDelete 3 (handleDelete 3 exampleLedger) = handleDelete 3 exampleLedger
    ∧ handleDelete 3 exampleLedger = exampleLedger :=
  ⟨(C4_remove_idempotent exampleLedger 3).1,
   (C4_remove_idempotent exampleLedger 3).2 (by decide)⟩

/-- C5: on the example ledger the total is 599.98 with one selected item, and
after selecting item 2 the total is 799.97 with two selected items. -/
theorem C5_example_scenario :
    totalAmount exampleLedger = 599.98
    ∧ checkedCount exampleLedger = 1
    ∧ totalAmount (handleCheck 2 true exampleLedger) = 799.97
    ∧ checkedCount (handleCheck 2 true exampleLedger) = 2 := by
  refine ⟨?_, by decide, ?_, by decide⟩
  · norm_num [totalAmount, exampleLedger]
  · norm_num [totalAmount, handleCheck, exampleLedger]

lemma stepOp_bounds (op : WizardOp) (s : Int) (h0 : 0 ≤ s) (h2 : s ≤ 2) :
    0 ≤ stepOp op s ∧ stepOp op s ≤ 2 := by
  cases op <;>
    simp only [stepOp, handleNext, handlePrev, steps, List.length_cons,
      List.length_nil] <;>
    split <;> omega

lemma runWizard_foldl_bounds (ops : List WizardOp) :
    ∀ s : Int, 0 ≤ s → s ≤ 2 →
      0 ≤ ops.foldl (fun s op => stepOp op s) s
      ∧ ops.foldl (fun s op => stepOp op s) s ≤ 2 := by
  induction ops with
  | nil => intro s h0 h2; exact ⟨h0, h2⟩
  | cons op rest ih =>
    intro s h0 h2
    have hb := stepOp_bounds op s h0 h2
    simpa using ih (stepOp op s) hb.1 hb.2

/-- C6: every state reachable from step 0 by `next`/`prev` presses lies in
{0,1,2}; `next` moves the step by exactly +1 or leaves it unchanged; `prev`
at step 0 leaves the step at 0. -/
theorem C6_wizard_invariant :
    ∀ ops : List WizardOp,
      (0 ≤ runWizard ops ∧ runWizard ops ≤ 2)
      ∧ (∀ s : Int, handleNext s = s + 1 ∨ handleNext s = s)
      ∧ handlePrev 0 = 0 := by
  intro ops
  refine ⟨runWizard_foldl_bounds ops 0 (by norm_num) (by norm_num), ?_, by decide⟩
  intro s
  by_cases hs : s < (steps.length : Int) - 1
  · exact Or.inl (if_pos hs)
  · exact Or.inr (if_neg hs)

/-- C7: selecting everything makes the selected count the list length;
deselecting everything makes it 0. -/
theorem C7_select_all_count (items : List CartItem) :
    checkedCount (handleCheckAll true items) = items.length
    ∧ checkedCount (handleCheckAll false items) = 0 := by
  induction items with
  | nil => exact ⟨rfl, rfl⟩
  | cons hd tl ih =>
    refine ⟨?_, ?_⟩ <;>
      simp only [checkedCount, handleCheckAll, List.map_cons, List.filter_cons,
        List.length_cons] at ih ⊢ <;>
      simp [ih.1, ih.2]

/-- C8: `handleQuantityChange` with an id matching no item returns the list
unchanged (same items, same order, same length). -/
theorem C8_quantity_missing_id_noop (items : List CartItem) (i q : Int)
    (h : ∀ it ∈ items, it.id ≠ i) :
    handleQuantityChange i q items = items := by
  induction items with
  | nil => rfl
  | cons hd tl ih =>
    have hhd : hd.id ≠ i := h hd (List.mem_cons_self _ _)
    have htl := ih (fun it hm => h it (List.mem_cons_of_mem _ hm))
    simp only [handleQuantityChange, List.map_cons, beq_iff_eq] at htl ⊢
    simp [hhd, htl]

/-- C8 witness: id 3 is absent from the example ledger, so changing its
quantity is a no-op. -/
theorem C8_quantity_missing_id_noop_witness :
    handleQuantityChange 3 7 exampleLedger = exampleLedger :=
  C8_quantity_missing_id_noop exampleLedger 3 7 (by decide)

/-- C9: the checkout total is the sum of `price × quantity` over the whole
snapshot (no selection filter) plus the shipping fee minus the discount. -/
theorem C9_checkout_total (items : List CheckoutItem) (fee disc : Rat)
    (_hf : 0 ≤ fee) (_hd : 0 ≤ disc) :
    finalAmount items fee disc
      = (items.map (fun it => it.price * (it.quantity : Rat))).sum
        + fee - disc := by
  rw [finalAmount, checkoutTotalAmount, checkout_foldl_sum, zero_add]

/-- C9 witness: at the source's snapshot with the source's zero fee and
discount, the final amount is the plain item sum. -/
theorem C9_checkout_total_witness :
    finalAmount checkoutSnapshot 0 0
      = (checkoutSnapshot.map (fun it => it.price * (it.quantity : Rat))).sum
        + 0 - 0 :=
  C9_checkout_total checkoutSnapshot 0 0 (le_refl 0) (le_refl 0)

/-- C10: `remove(id)` yields a sublist of the original (order and fields of
survivors untouched), every surviving item has a different id, and every
item with a different id survives. -/
theorem C10_remove_characterisation (items : List CartItem) (i : Int) :
    List.Sublist (handleDelete i items) items
    ∧ (∀ it ∈ handleDelete i items, it.id ≠ i)
    ∧ (∀ it ∈ items, it.id ≠ i → it ∈ handleDelete i items) := by
  refine ⟨List.filter_sublist items, ?_, ?_⟩
  · intro it hit
    have := List.of_mem_filter hit
    simpa using this
  · intro it hmem hne
    apply List.mem_filter.mpr
    exact ⟨hmem, by simpa using hne⟩

/-- C10 witness: removing id 1 from the example ledger keeps exactly item 2
in order. -/
theorem C10_remove_characterisation_witness :
    List.Sublist (handleDelete 1 exampleLedger) exampleLedger
    ∧ (∀ it ∈ handleDelete 1 exampleLedger, it.id ≠ 1)
    ∧ (∀ it ∈ exampleLedger, it.id ≠ 1 → it ∈ handleDelete 1 exampleLedger) :=
  C10_remove_characterisation exampleLedger 1
